import Mathlib

/-!
Shallow embedding of the conversion layer of `crates/agentgateway/src/types/agent_xds.rs`
(the `TryFrom` impls turning wire control-plane messages into the runtime model),
together with proofs about the claims of the specification.

Conventions used throughout:
* Rust `String` fields are Lean `String`; `Option<T>` is `Option`; `u32` fields are `Nat`
  (values of the wire are arbitrary naturals; a Rust `as u16` cast is `% 65536`).
* The `Listener` protocol conversion's input type is the already-decoded enum, as in
  the source (`TryFrom<(Protocol, Option<&TlsConfig>)>`). For `McpTarget` the decode
  of the raw `i32` protocol field is part of the conversion itself
  (`Protocol::try_from(s.protocol)?`), so it is embedded explicitly:
  `McpTargetWireRaw` carries the raw integer, `mcpProtocolTryFrom` is the fallible
  decode, and `mcpTargetTryFromRaw` is the whole conversion; `mcpTargetTryFrom` is
  its remainder after the decode.
* Functions of external crates that the conversion layer calls (rustls certificate
  parsing, `regex::Regex::new`, `http::uri::Scheme`/`StatusCode`/header parsing,
  `prost` duration conversion, CORS building, `Target` parsing) are abstracted into an
  `Externals` record of parameters; the error-mapping that is visible in the source
  (`map_err(ProtoError::Generic)`) is kept explicit here.
* A Rust panic (the `NonZeroU16::new(..).unwrap()` in the `RequestRedirect` branch of
  `RouteFilter::try_from`) is modelled by an outer `Option`: `none` means the
  conversion panicked; `some r` means it returned `r` normally.
-/

/-- The error enum `ProtoError` as used by this file: `Generic(String)`,
`EnumParse(String)`, `NamespacedHostnameParse(String)` and `MissingRequiredField`. -/
inductive ProtoError where
  | generic (msg : String)
  | enumParse (msg : String)
  | namespacedHostnameParse (raw : String)
  | missingRequiredField
deriving Repr, DecidableEq

/-- Wire `TlsConfig`: PEM certificate chain and private key bytes (kept opaque). -/
structure TlsConfig where
  cert : String
  private_key : String
deriving Repr, DecidableEq

/-- Wire `Protocol` enum of `proto::agent`. -/
inductive Protocol where
  | Unknown
  | Http
  | Https
  | Tls
  | Tcp
  | Hbone
deriving Repr, DecidableEq

/-- Wire `mcp_target::Protocol` enum. -/
inductive McpProtocol where
  | Undefined
  | Sse
  | StreamableHttp
deriving Repr, DecidableEq

/-- Wire `route_backend::Kind` oneof. -/
inductive RouteBackendKind where
  | Backend (key : String)
  | Service (key : String)
deriving Repr, DecidableEq

/-- Wire `mcp_target::Kind` oneof. -/
inductive McpTargetKind where
  | Backend (name : String)
  | Service (key : String)
deriving Repr, DecidableEq

/-- Wire `prost_types::Duration`-style message carried by timeout and max-age fields. -/
structure ProtoDuration where
  seconds : Int
  nanos : Int
deriving Repr, DecidableEq

/-- Wire `TrafficPolicy` message. -/
structure TrafficPolicyWire where
  request_timeout : Option ProtoDuration
  backend_request_timeout : Option ProtoDuration
deriving Repr, DecidableEq

/-- Wire `path_match::Kind` oneof. -/
inductive PathKindWire where
  | PathPrefix (s : String)
  | Exact (s : String)
  | Regex (s : String)
deriving Repr, DecidableEq

/-- Wire `PathMatch` message (its oneof may be absent). -/
structure PathMatchWire where
  kind : Option PathKindWire
deriving Repr, DecidableEq

/-- Wire `MethodMatch` message. -/
structure MethodMatchWire where
  exact : String
deriving Repr, DecidableEq

/-- Wire `header_match::Value` oneof. -/
inductive HeaderValueWire where
  | Exact (s : String)
  | Regex (s : String)
deriving Repr, DecidableEq

/-- Wire `HeaderMatch` message. -/
structure HeaderMatchWire where
  name : String
  value : Option HeaderValueWire
deriving Repr, DecidableEq

/-- Wire `query_match::Value` oneof. -/
inductive QueryValueWire where
  | Exact (s : String)
  | Regex (s : String)
deriving Repr, DecidableEq

/-- Wire `QueryMatch` message. -/
structure QueryMatchWire where
  name : String
  value : Option QueryValueWire
deriving Repr, DecidableEq

/-- Wire `RouteMatch` message. -/
structure RouteMatchWire where
  path : Option PathMatchWire
  method : Option MethodMatchWire
  headers : List HeaderMatchWire
  query_params : List QueryMatchWire
deriving Repr, DecidableEq

/-- Wire header key/value pair used by the header-modifier filters. -/
structure HeaderWire where
  name : String
  value : String
deriving Repr, DecidableEq

/-- Wire `HeaderModifier` message. -/
structure HeaderModifierWire where
  add : List HeaderWire
  set : List HeaderWire
  remove : List String
deriving Repr, DecidableEq

/-- Wire `request_redirect::Path` / `url_rewrite::Path` oneof. -/
inductive RedirectPathWire where
  | Full (s : String)
  | Prefix (s : String)
deriving Repr, DecidableEq

/-- Wire `RequestRedirect` message: `scheme`/`host` are plain strings (empty when
absent), `port`/`status` are `u32` (zero when absent). -/
structure RequestRedirectWire where
  scheme : String
  host : String
  port : Nat
  path : Option RedirectPathWire
  status : Nat
deriving Repr, DecidableEq

/-- Wire `UrlRewrite` message. -/
structure UrlRewriteWire where
  host : String
  path : Option RedirectPathWire
deriving Repr, DecidableEq

/-- Wire `request_mirror::Kind` oneof (only a service reference). -/
inductive MirrorKindWire where
  | Service (key : String)
deriving Repr, DecidableEq

/-- Wire `RequestMirror` message; the `f64` percentage is modelled as a rational. -/
structure RequestMirrorWire where
  kind : Option MirrorKindWire
  port : Nat
  percentage : Rat
deriving Repr, DecidableEq

/-- Wire `DirectResponse` message. -/
structure DirectResponseWire where
  body : List Nat
  status : Nat
deriving Repr, DecidableEq

/-- Wire CORS policy message. -/
structure CorsWire where
  allow_credentials : Bool
  allow_headers : List String
  allow_methods : List String
  allow_origins : List String
  expose_headers : List String
  max_age : Option ProtoDuration
deriving Repr, DecidableEq

/-- Wire `route_filter::Kind` oneof. -/
inductive RouteFilterKindWire where
  | RequestHeaderModifier (h : HeaderModifierWire)
  | RequestRedirect (r : RequestRedirectWire)
  | UrlRewrite (r : UrlRewriteWire)
  | ResponseHeaderModifier (h : HeaderModifierWire)
  | RequestMirror (m : RequestMirrorWire)
  | DirectResponse (d : DirectResponseWire)
  | Cors (c : CorsWire)
deriving Repr, DecidableEq

/-- Wire `RouteFilter` message (its oneof may be absent). -/
structure RouteFilterWire where
  kind : Option RouteFilterKindWire
deriving Repr, DecidableEq

/-- Wire `RouteBackend` message. -/
structure RouteBackendWire where
  kind : Option RouteBackendKind
  port : Nat
  weight : Nat
  filters : List RouteFilterWire
deriving Repr, DecidableEq

/-- Wire `McpTarget` message with the protocol field already decoded; the raw form
as prost delivers it is `McpTargetWireRaw` below. -/
structure McpTargetWire where
  name : String
  protocol : McpProtocol
  kind : Option McpTargetKind
  port : Nat
deriving Repr, DecidableEq

/-- Wire `McpTarget` message as encoded on the wire: the prost-generated `protocol`
field is a raw `i32` whose decode can fail. -/
structure McpTargetWireRaw where
  name : String
  protocol : Int
  kind : Option McpTargetKind
  port : Nat
deriving Repr, DecidableEq

/-- Wire static-backend message (`backend::Kind::Static`). -/
structure StaticBackendWire where
  host : String
  port : Nat
deriving Repr, DecidableEq

/-- Wire host/port override carried by an AI backend. -/
structure TargetWire where
  host : String
  port : Nat
deriving Repr, DecidableEq

/-- Wire OpenAI provider config. -/
structure OpenAIWire where
  model : Option String
deriving Repr, DecidableEq

/-- Wire Gemini provider config. -/
structure GeminiWire where
  model : Option String
deriving Repr, DecidableEq

/-- Wire Vertex provider config: `region` and `project_id` are plain strings. -/
structure VertexWire where
  model : Option String
  region : String
  project_id : String
deriving Repr, DecidableEq

/-- Wire Anthropic provider config. -/
structure AnthropicWire where
  model : Option String
deriving Repr, DecidableEq

/-- Wire Bedrock provider config: `model` is an optional field, `region` is a plain
string (empty when absent). -/
structure BedrockWire where
  model : Option String
  region : String
deriving Repr, DecidableEq

/-- Wire `ai_backend::Provider` oneof. -/
inductive ProviderWire where
  | Openai (o : OpenAIWire)
  | Gemini (g : GeminiWire)
  | Vertex (v : VertexWire)
  | Anthropic (a : AnthropicWire)
  | Bedrock (b : BedrockWire)
deriving Repr, DecidableEq

/-- Wire AI backend message (`backend::Kind::Ai`). -/
structure AiBackendWire where
  override : Option TargetWire
  provider : Option ProviderWire
deriving Repr, DecidableEq

/-- Wire MCP backend message (`backend::Kind::Mcp`); its targets carry the raw
protocol field. -/
structure McpBackendWire where
  targets : List McpTargetWireRaw
deriving Repr, DecidableEq

/-- Wire `backend::Kind` oneof. -/
inductive BackendKindWire where
  | Static (s : StaticBackendWire)
  | Ai (a : AiBackendWire)
  | Mcp (m : McpBackendWire)
deriving Repr, DecidableEq

/-- Wire `Backend` message. -/
structure BackendWire where
  name : String
  kind : Option BackendKindWire
deriving Repr, DecidableEq

/-! Runtime model types (the targets of the conversions). -/

/-- Runtime `TLSConfig`: the built rustls server context, kept as an opaque token
produced by the abstracted certificate/key parser. -/
structure TLSConfig where
  token : Nat
deriving Repr, DecidableEq

/-- Runtime `ListenerProtocol`. -/
inductive ListenerProtocol where
  | HTTP
  | HTTPS (c : TLSConfig)
  | TLS (c : TLSConfig)
  | TCP
  | HBONE
deriving Repr, DecidableEq

/-- Runtime `NamespacedHostname` (field `namespace` is spelled `ns`, a Lean keyword). -/
structure NamespacedHostname where
  ns : String
  hostname : String
deriving Repr, DecidableEq

/-- Runtime `BackendReference`. -/
inductive BackendReference where
  | Backend (name : String)
  | Service (name : NamespacedHostname) (port : Nat)
  | Invalid
deriving Repr, DecidableEq

/-- Runtime `SimpleBackendReference`. -/
inductive SimpleBackendReference where
  | Backend (name : String)
  | Service (name : NamespacedHostname) (port : Nat)
  | Invalid
deriving Repr, DecidableEq

/-- A compiled regular expression, kept as an opaque token remembering the pattern it
was compiled from; compilation itself is an abstracted external (`regex::Regex::new`). -/
structure Regex where
  compiled : String
deriving Repr, DecidableEq

/-- Runtime `PathMatch`: a compiled regex is stored together with the original
pattern length. -/
inductive PathMatch where
  | PathPrefix (s : String)
  | Exact (s : String)
  | Regex (r : Regex) (len : Nat)
deriving Repr, DecidableEq

/-- Runtime `MethodMatch`. -/
structure MethodMatch where
  method : String
deriving Repr, DecidableEq

/-- Parsed HTTP header name (opaque token of the abstracted parser). -/
structure HeaderName where
  name : String
deriving Repr, DecidableEq

/-- Parsed HTTP header value (opaque token of the abstracted parser). -/
structure HeaderValue where
  value : String
deriving Repr, DecidableEq

/-- Runtime `HeaderValueMatch`. -/
inductive HeaderValueMatch where
  | Exact (v : HeaderValue)
  | Regex (r : Regex)
deriving Repr, DecidableEq

/-- Runtime `HeaderMatch`. -/
structure HeaderMatch where
  name : HeaderName
  value : HeaderValueMatch
deriving Repr, DecidableEq

/-- Runtime `QueryValueMatch`. -/
inductive QueryValueMatch where
  | Exact (v : String)
  | Regex (r : Regex)
deriving Repr, DecidableEq

/-- Runtime `QueryMatch`. -/
structure QueryMatch where
  name : String
  value : QueryValueMatch
deriving Repr, DecidableEq

/-- Runtime `RouteMatch`. -/
structure RouteMatch where
  path : PathMatch
  method : Option MethodMatch
  headers : List HeaderMatch
  query : List QueryMatch
deriving Repr, DecidableEq

/-- A parsed URI scheme (opaque token of the abstracted `http::uri::Scheme` parser). -/
structure Scheme where
  scheme : String
deriving Repr, DecidableEq

/-- A validated HTTP status code (opaque token of the abstracted parser). -/
structure StatusCode where
  code : Nat
deriving Repr, DecidableEq

/-- A `NonZeroU16` value; `nonZeroU16New` below is the checked constructor. -/
structure NonZeroU16 where
  val : Nat
deriving Repr, DecidableEq

/-- Runtime `HostRedirect`. -/
inductive HostRedirect where
  | Full (s : String)
  | Host (s : String)
  | Port (p : NonZeroU16)
deriving Repr, DecidableEq

/-- Runtime `PathRedirect`. -/
inductive PathRedirect where
  | Full (s : String)
  | Prefix (s : String)
deriving Repr, DecidableEq

/-- Runtime `filters::HeaderModifier`. -/
structure HeaderModifier where
  add : List (String × String)
  set : List (String × String)
  remove : List String
deriving Repr, DecidableEq

/-- Runtime `filters::RequestRedirect`. -/
structure RequestRedirect where
  scheme : Option Scheme
  authority : Option HostRedirect
  path : Option PathRedirect
  status : Option StatusCode
deriving Repr, DecidableEq

/-- Runtime `filters::UrlRewrite`. -/
structure UrlRewrite where
  authority : Option HostRedirect
  path : Option PathRedirect
deriving Repr, DecidableEq

/-- Runtime `filters::RequestMirror`. -/
structure RequestMirror where
  backend : SimpleBackendReference
  port : Nat
  percentage : Rat
deriving Repr, DecidableEq

/-- Runtime `filters::DirectResponse`. -/
structure DirectResponse where
  body : List Nat
  status : StatusCode
deriving Repr, DecidableEq

/-- A built CORS policy (opaque token of the abstracted `Cors::try_from`). -/
structure Cors where
  token : Nat
deriving Repr, DecidableEq

/-- The `CorsSerde` intermediate passed to the external CORS builder; `max_age` is
`Duration::from_secs(d.seconds as u64)`. -/
structure CorsSerde where
  allow_credentials : Bool
  allow_headers : List String
  allow_methods : List String
  allow_origins : List String
  expose_headers : List String
  max_age : Option Nat
deriving Repr, DecidableEq

/-- Runtime `RouteFilter`. -/
inductive RouteFilter where
  | RequestHeaderModifier (h : HeaderModifier)
  | RequestRedirect (r : RequestRedirect)
  | UrlRewrite (r : UrlRewrite)
  | ResponseHeaderModifier (h : HeaderModifier)
  | RequestMirror (m : RequestMirror)
  | DirectResponse (d : DirectResponse)
  | CORS (c : Cors)
deriving Repr, DecidableEq

/-- Runtime `RouteBackendReference`. -/
structure RouteBackendReference where
  weight : Nat
  backend : BackendReference
  filters : List RouteFilter
deriving Repr, DecidableEq

/-- Runtime `SseTargetSpec`. -/
structure SseTargetSpec where
  backend : SimpleBackendReference
  path : String
deriving Repr, DecidableEq

/-- Runtime `StreamableHTTPTargetSpec`. -/
structure StreamableHTTPTargetSpec where
  backend : SimpleBackendReference
  path : String
deriving Repr, DecidableEq

/-- Runtime `McpTargetSpec`. -/
inductive McpTargetSpec where
  | Sse (s : SseTargetSpec)
  | Mcp (s : StreamableHTTPTargetSpec)
deriving Repr, DecidableEq

/-- Runtime `McpTarget`. -/
structure McpTarget where
  name : String
  spec : McpTargetSpec
deriving Repr, DecidableEq

/-- Runtime `McpBackend`. -/
structure McpBackend where
  targets : List McpTarget
deriving Repr, DecidableEq

/-- A resolved static target (host, port), built by the abstracted
`Target::try_from`. -/
structure Target where
  host : String
  port : Nat
deriving Repr, DecidableEq

/-- Runtime provider config for OpenAI. -/
structure OpenAIProvider where
  model : Option String
deriving Repr, DecidableEq

/-- Runtime provider config for Gemini. -/
structure GeminiProvider where
  model : Option String
deriving Repr, DecidableEq

/-- Runtime provider config for Vertex. -/
structure VertexProvider where
  model : Option String
  region : Option String
  project_id : String
deriving Repr, DecidableEq

/-- Runtime provider config for Anthropic. -/
structure AnthropicProvider where
  model : Option String
deriving Repr, DecidableEq

/-- Runtime provider config for Bedrock: both fields are plain strings. -/
structure BedrockProvider where
  model : String
  region : String
deriving Repr, DecidableEq

/-- Runtime `AIProvider`. -/
inductive AIProvider where
  | OpenAI (p : OpenAIProvider)
  | Gemini (p : GeminiProvider)
  | Vertex (p : VertexProvider)
  | Anthropic (p : AnthropicProvider)
  | Bedrock (p : BedrockProvider)
deriving Repr, DecidableEq

/-- Runtime `AIBackend`. -/
structure AIBackend where
  host_override : Option Target
  provider : AIProvider
deriving Repr, DecidableEq

/-- Runtime `Backend`. -/
inductive Backend where
  | Opaque (name : String) (t : Target)
  | AI (name : String) (b : AIBackend)
  | MCP (name : String) (m : McpBackend)
deriving Repr, DecidableEq

/-- A std `Duration` value (seconds, nanoseconds). -/
structure Duration where
  secs : Nat
  nanos : Nat
deriving Repr, DecidableEq

/-- Runtime retry policy; the conversion never produces one, so it is opaque. -/
structure Retry where
  token : Nat
deriving Repr, DecidableEq

/-- Runtime `timeout::Policy`. -/
structure TimeoutPolicy where
  request_timeout : Option Duration
  backend_request_timeout : Option Duration
deriving Repr, DecidableEq

/-- Runtime `TrafficPolicy`. -/
structure TrafficPolicy where
  timeout : TimeoutPolicy
  retry : Option Retry
deriving Repr, DecidableEq

/-- The external crate functions called by the conversion layer, abstracted as
parameters of the embedding. Each returns the error type that the call site
propagates: where the source maps the error through `ProtoError::Generic` explicitly,
the parameter returns a `String` and the mapping is done at the call site. -/
structure Externals where
  parseTls : TlsConfig → Except String TLSConfig
  compileRegex : String → Except ProtoError Regex
  parseScheme : String → Except ProtoError Scheme
  statusFromU16 : Nat → Except ProtoError StatusCode
  parseHeaderName : String → Except ProtoError HeaderName
  parseHeaderValue : String → Except ProtoError HeaderValue
  parseCors : CorsSerde → Except String Cors
  parseTarget : String → Nat → Except String Target
  parseDuration : ProtoDuration → Except ProtoError Duration

/-- All-accepting instantiation of the external parsers, used to evaluate the
conversions on concrete inputs. -/
def defaultExternals : Externals where
  parseTls := fun _ => .ok ⟨0⟩
  compileRegex := fun s => .ok ⟨s⟩
  parseScheme := fun s => .ok ⟨s⟩
  statusFromU16 := fun n => .ok ⟨n⟩
  parseHeaderName := fun s => .ok ⟨s⟩
  parseHeaderValue := fun s => .ok ⟨s⟩
  parseCors := fun _ => .ok ⟨0⟩
  parseTarget := fun h p => .ok ⟨h, p⟩
  parseDuration := fun d => .ok ⟨d.seconds.toNat, d.nanos.toNat⟩

/-! Helpers used by the conversions. -/

/-- The `default_as_none` helper of `agent_xds.rs`: `None` when the value equals the
type's default, `Some` otherwise. Rust `Default` is modelled by `Inhabited`
(`""` for `String`, `0` for `Nat`, matching Rust). -/
def default_as_none {α : Type} [Inhabited α] [DecidableEq α] (i : α) : Option α :=
  if i = default then none else some i

/-- Rust `str::split_once('/')` on the character list: splits at the first `/`. -/
def splitOnceAux : List Char → Option (List Char × List Char)
  | [] => none
  | c :: rest =>
    if c = '/' then some ([], rest)
    else (splitOnceAux rest).map (fun p => (c :: p.1, p.2))

/-- Rust `str::split_once('/')` on strings. -/
def splitOnce (s : String) : Option (String × String) :=
  (splitOnceAux s.data).map (fun p => (String.mk p.1, String.mk p.2))

/-- Rust `Option::transpose` for `Option (Except e a)`. -/
def transposeOE {ε α : Type} : Option (Except ε α) → Except ε (Option α)
  | none => .ok none
  | some (.ok a) => .ok (some a)
  | some (.error e) => .error e

/-- `NonZeroU16::new`: `none` exactly on zero. -/
def nonZeroU16New (n : Nat) : Option NonZeroU16 :=
  if n = 0 then none else some ⟨n⟩

/-- Debug formatting (`{:?}`) of the wire `Protocol` enum. -/
def protocolDebugName : Protocol → String
  | .Unknown => "Unknown"
  | .Http => "Http"
  | .Https => "Https"
  | .Tls => "Tls"
  | .Tcp => "Tcp"
  | .Hbone => "Hbone"

/-- The message of the incompatible protocol/TLS-combination error of
`ListenerProtocol::try_from`: it names the protocol and whether a TLS config was
present. -/
def incompatibleMsg (p : Protocol) (hasTls : Bool) : String :=
  "protocol " ++ protocolDebugName p ++ " is incompatible with " ++
    (if hasTls then "tls" else "no tls config")

/-! The conversions of `agent_xds.rs`. -/

/-- `ListenerProtocol::try_from((Protocol, Option<&TlsConfig>))`. An error from the
TLS material parser is wrapped in `ProtoError::Generic`, as at the source call
sites. -/
def listenerProtocolTryFrom (ext : Externals) (p : Protocol) (tls : Option TlsConfig) :
    Except ProtoError ListenerProtocol :=
  match p, tls with
  | .Unknown, _ => .error (.enumParse "unknown protocol")
  | .Http, none => .ok .HTTP
  | .Https, some t =>
    match ext.parseTls t with
    | .ok c => .ok (.HTTPS c)
    | .error e => .error (.generic e)
  | .Tls, some t =>
    match ext.parseTls t with
    | .ok c => .ok (.TLS c)
    | .error e => .error (.generic e)
  | .Tcp, none => .ok .TCP
  | .Hbone, none => .ok .HBONE
  | p, tls => .error (.generic (incompatibleMsg p tls.isSome))

/-- `TrafficPolicy::try_from`: carries the two timeout fields over and always sets
`retry: None` (marked `TODO: pass in XDS` in the source). -/
def trafficPolicyTryFrom (ext : Externals) (s : TrafficPolicyWire) :
    Except ProtoError TrafficPolicy :=
  match transposeOE (s.request_timeout.map ext.parseDuration) with
  | .error e => .error e
  | .ok req =>
    match transposeOE (s.backend_request_timeout.map ext.parseDuration) with
    | .error e => .error e
    | .ok backend =>
      .ok { timeout := { request_timeout := req, backend_request_timeout := backend },
            retry := none }

/-- The `kind` computation of `RouteBackendReference::try_from`: an absent oneof is
`BackendReference::Invalid`; a service key is split on the first `/`, and a key
without separator is a `NamespacedHostnameParse` error carrying the raw key. -/
def routeBackendKindConv (s : RouteBackendWire) : Except ProtoError BackendReference :=
  match s.kind with
  | none => .ok .Invalid
  | some (.Backend key) => .ok (.Backend key)
  | some (.Service key) =>
    match splitOnce key with
    | some (a, b) => .ok (.Service ⟨a, b⟩ (s.port % 65536))
    | none => .error (.namespacedHostnameParse key)

/-- The `HeaderModifier` construction shared by the request/response header-modifier
filter arms. -/
def headerModifierConv (h : HeaderModifierWire) : HeaderModifier :=
  { add := h.add.map (fun x => (x.name, x.value)),
    set := h.set.map (fun x => (x.name, x.value)),
    remove := h.remove }

/-- The `authority` computation of the `RequestRedirect` arm of
`RouteFilter::try_from`. The outer `Option` models the panic of
`NonZeroU16::new(p as u16).unwrap()`: `none` is a panic. -/
def redirectAuthority (host : String) (port : Nat) : Option (Option HostRedirect) :=
  match default_as_none host, default_as_none port with
  | some h, some p => some (some (.Full (h ++ ":" ++ toString p)))
  | none, some p =>
    match nonZeroU16New (p % 65536) with
    | some nz => some (some (.Port nz))
    | none => none
  | some h, none => some (some (.Host h))
  | none, none => some none

/-- The `path` mapping shared by the redirect and rewrite arms. -/
def redirectPathConv (p : Option RedirectPathWire) : Option PathRedirect :=
  p.map (fun x => match x with
    | .Full f => .Full f
    | .Prefix f => .Prefix f)

/-- `RouteFilter::try_from`. The outer `Option` models a panic (`none`), which can
only arise from the `NonZeroU16` unwrap in the redirect arm; the inner `Except` is
the function's `Result`. Field computations follow the source's struct-literal
evaluation order. -/
def routeFilterTryFrom (ext : Externals) (s : RouteFilterWire) :
    Option (Except ProtoError RouteFilter) :=
  match s.kind with
  | none => some (.error (.generic "invalid route filter"))
  | some (.RequestHeaderModifier rhm) =>
    some (.ok (.RequestHeaderModifier (headerModifierConv rhm)))
  | some (.RequestRedirect rd) =>
    match transposeOE ((default_as_none rd.scheme).map ext.parseScheme) with
    | .error e => some (.error e)
    | .ok scheme =>
      match redirectAuthority rd.host rd.port with
      | none => none
      | some authority =>
        match transposeOE ((default_as_none rd.status).map
            (fun i => ext.statusFromU16 (i % 65536))) with
        | .error e => some (.error e)
        | .ok status =>
          some (.ok (.RequestRedirect
            { scheme := scheme, authority := authority,
              path := redirectPathConv rd.path, status := status }))
  | some (.UrlRewrite rw) =>
    some (.ok (.UrlRewrite
      { authority := (default_as_none rw.host).map (fun h => .Host h),
        path := redirectPathConv rw.path }))
  | some (.ResponseHeaderModifier rhm) =>
    some (.ok (.ResponseHeaderModifier (headerModifierConv rhm)))
  | some (.RequestMirror m) =>
    let backendRes : Except ProtoError SimpleBackendReference :=
      match m.kind with
      | none => .ok .Invalid
      | some (.Service key) =>
        match splitOnce key with
        | some (a, b) => .ok (.Service ⟨a, b⟩ (m.port % 65536))
        | none => .error (.namespacedHostnameParse key)
    match backendRes with
    | .error e => some (.error e)
    | .ok backend =>
      some (.ok (.RequestMirror
        { backend := backend, port := m.port % 65536,
          percentage := m.percentage / 100 }))
  | some (.DirectResponse d) =>
    match ext.statusFromU16 (d.status % 65536) with
    | .error e => some (.error e)
    | .ok st => some (.ok (.DirectResponse { body := d.body, status := st }))
  | some (.Cors c) =>
    match ext.parseCors
        { allow_credentials := c.allow_credentials,
          allow_headers := c.allow_headers,
          allow_methods := c.allow_methods,
          allow_origins := c.allow_origins,
          expose_headers := c.expose_headers,
          max_age := c.max_age.map (fun d => (d.seconds.emod (2 ^ 64)).toNat) } with
    | .error e => some (.error (.generic e))
    | .ok cors => some (.ok (.CORS cors))

/-- The `collect::<Result<Vec<_>, _>>()` over `RouteFilter::try_from`: short-circuits
on the first error; a panic (outer `none`) propagates. -/
def convertFilters (ext : Externals) : List RouteFilterWire →
    Option (Except ProtoError (List RouteFilter))
  | [] => some (.ok [])
  | f :: rest =>
    match routeFilterTryFrom ext f with
    | none => none
    | some (.error e) => some (.error e)
    | some (.ok r) =>
      match convertFilters ext rest with
      | none => none
      | some (.error e) => some (.error e)
      | some (.ok rs) => some (.ok (r :: rs))

/-- `RouteBackendReference::try_from`: the backend kind first (its `?` returns before
the filters are converted), then the filters. -/
def routeBackendTryFrom (ext : Externals) (s : RouteBackendWire) :
    Option (Except ProtoError RouteBackendReference) :=
  match routeBackendKindConv s with
  | .error e => some (.error e)
  | .ok kind =>
    match convertFilters ext s.filters with
    | none => none
    | some (.error e) => some (.error e)
    | some (.ok fs) => some (.ok { weight := s.weight, backend := kind, filters := fs })

/-- The `backend` computation of `McpTarget::try_from`: absent oneof is
`SimpleBackendReference::Invalid`; a service key is split on the first `/`. -/
def mcpTargetKindConv (s : McpTargetWire) : Except ProtoError SimpleBackendReference :=
  match s.kind with
  | none => .ok .Invalid
  | some (.Backend name) => .ok (.Backend name)
  | some (.Service key) =>
    match splitOnce key with
    | some (a, b) => .ok (.Service ⟨a, b⟩ (s.port % 65536))
    | none => .error (.namespacedHostnameParse key)

/-- The remainder of `McpTarget::try_from` after the protocol decode: `Sse` maps to
the SSE spec with path `/sse`; `Undefined` and `StreamableHttp` map to the
streamable-HTTP spec with path `/mcp`. The decode itself is `mcpProtocolTryFrom`,
and the whole conversion is `mcpTargetTryFromRaw`. -/
def mcpTargetTryFrom (s : McpTargetWire) : Except ProtoError McpTarget :=
  (mcpTargetKindConv s).map (fun backend =>
    { name := s.name,
      spec :=
        match s.protocol with
        | .Sse => .Sse { backend := backend, path := "/sse" }
        | .Undefined => .Mcp { backend := backend, path := "/mcp" }
        | .StreamableHttp => .Mcp { backend := backend, path := "/mcp" } })

/-- Modelled from the spec: the prost-generated `mcp_target::Protocol::try_from` on
the raw `i32` (the `.proto` file with the tag numbers is not under `src/`):
`Undefined` is the proto3 zero default, the other variants follow declaration
order, and any other value is a malformed-enum conversion error (spec section 7),
which the `?` at the head of `McpTarget::try_from` propagates. -/
def mcpProtocolTryFrom (n : Int) : Except ProtoError McpProtocol :=
  if n = 0 then .ok .Undefined
  else if n = 1 then .ok .Sse
  else if n = 2 then .ok .StreamableHttp
  else .error (.enumParse "unknown enum value")

/-- `McpTarget::try_from` in full: first the fallible protocol decode
(`let proto = Protocol::try_from(s.protocol)?`), then the remainder of the
function on the decoded message. -/
def mcpTargetTryFromRaw (s : McpTargetWireRaw) : Except ProtoError McpTarget :=
  match mcpProtocolTryFrom s.protocol with
  | .error e => .error e
  | .ok proto => mcpTargetTryFrom ⟨s.name, proto, s.kind, s.port⟩

/-- The `collect` over `McpTarget::try_from` (the `Arc::new` wrapper is dropped). -/
def convertMcpTargets : List McpTargetWireRaw → Except ProtoError (List McpTarget)
  | [] => .ok []
  | t :: rest =>
    match mcpTargetTryFromRaw t with
    | .error e => .error e
    | .ok r =>
      match convertMcpTargets rest with
      | .error e => .error e
      | .ok rs => .ok (r :: rs)

/-- The provider mapping of the `Ai` arm of `Backend::try_from`. Bedrock requires a
`model` (absence is the error `bedrock requires a model`) while its `region` is
copied verbatim; the other providers copy their optional fields. -/
def providerConv (p : Option ProviderWire) : Except ProtoError AIProvider :=
  match p with
  | some (.Openai o) => .ok (.OpenAI { model := o.model })
  | some (.Gemini g) => .ok (.Gemini { model := g.model })
  | some (.Vertex v) =>
    .ok (.Vertex { model := v.model, region := some v.region, project_id := v.project_id })
  | some (.Anthropic a) => .ok (.Anthropic { model := a.model })
  | some (.Bedrock b) =>
    match b.model with
    | some m => .ok (.Bedrock { model := m, region := b.region })
    | none => .error (.generic "bedrock requires a model")
  | none => .error (.generic "AI backend provider is required")

/-- `Backend::try_from`. Errors of the external `Target` parser are wrapped in
`ProtoError::Generic` as at the source call sites; an absent kind is the
`unknown backend` error. -/
def backendTryFrom (ext : Externals) (s : BackendWire) : Except ProtoError Backend :=
  match s.kind with
  | some (.Static st) =>
    match ext.parseTarget st.host (st.port % 65536) with
    | .ok t => .ok (.Opaque s.name t)
    | .error e => .error (.generic e)
  | some (.Ai a) =>
    match transposeOE (a.override.map (fun o =>
        match ext.parseTarget o.host (o.port % 65536) with
        | .ok t => .ok t
        | .error e => .error (ProtoError.generic e))) with
    | .error e => .error e
    | .ok ho =>
      match providerConv a.provider with
      | .error e => .error e
      | .ok provider => .ok (.AI s.name { host_override := ho, provider := provider })
  | some (.Mcp m) =>
    match convertMcpTargets m.targets with
    | .error e => .error e
    | .ok targets => .ok (.MCP s.name { targets := targets })
  | none => .error (.generic "unknown backend")

/-- The path computation of `RouteMatch::try_from`: an absent path is the implicit
`PathPrefix("/")`; a regex pattern is compiled (at conversion time) and stored with
its pattern length; an empty oneof is an error. -/
def pathMatchConv (ext : Externals) (p : Option PathMatchWire) :
    Except ProtoError PathMatch :=
  match p with
  | none => .ok (.PathPrefix "/")
  | some { kind := some (.PathPrefix pre) } => .ok (.PathPrefix pre)
  | some { kind := some (.Exact e) } => .ok (.Exact e)
  | some { kind := some (.Regex r) } =>
    (ext.compileRegex r).map (fun re => .Regex re r.length)
  | some { kind := none } => .error (.generic "invalid path match")

/-- The per-element header-match conversion of `RouteMatch::try_from`: a missing
oneof is an error; a regex value is compiled at conversion time. -/
def headerMatchConvOne (ext : Externals) (h : HeaderMatchWire) :
    Except ProtoError HeaderMatch :=
  match h.value with
  | none => .error (.generic "invalid header match value")
  | some (.Exact e) =>
    match ext.parseHeaderName h.name with
    | .error er => .error er
    | .ok n =>
      match ext.parseHeaderValue e with
      | .error er => .error er
      | .ok v => .ok (HeaderMatch.mk n (.Exact v))
  | some (.Regex e) =>
    match ext.parseHeaderName h.name with
    | .error er => .error er
    | .ok n =>
      match ext.compileRegex e with
      | .error er => .error er
      | .ok r => .ok (HeaderMatch.mk n (.Regex r))

/-- The header-match collection of `RouteMatch::try_from`. -/
def convertHeaderMatches (ext : Externals) : List HeaderMatchWire →
    Except ProtoError (List HeaderMatch)
  | [] => .ok []
  | h :: rest =>
    match headerMatchConvOne ext h with
    | .error e => .error e
    | .ok hm =>
      match convertHeaderMatches ext rest with
      | .error e => .error e
      | .ok rest2 => .ok (hm :: rest2)

/-- The per-element query-match conversion of `RouteMatch::try_from`. -/
def queryMatchConvOne (ext : Externals) (q : QueryMatchWire) :
    Except ProtoError QueryMatch :=
  match q.value with
  | none => .error (.generic "invalid query match value")
  | some (.Exact e) => .ok (QueryMatch.mk q.name (.Exact e))
  | some (.Regex e) =>
    (ext.compileRegex e).map (fun r => QueryMatch.mk q.name (.Regex r))

/-- The query-match collection of `RouteMatch::try_from`. -/
def convertQueryMatches (ext : Externals) : List QueryMatchWire →
    Except ProtoError (List QueryMatch)
  | [] => .ok []
  | q :: rest =>
    match queryMatchConvOne ext q with
    | .error e => .error e
    | .ok qm =>
      match convertQueryMatches ext rest with
      | .error e => .error e
      | .ok rest2 => .ok (qm :: rest2)

/-- `RouteMatch::try_from`: path, then method, then headers, then query params, in
the source's evaluation order. -/
def routeMatchTryFrom (ext : Externals) (s : RouteMatchWire) :
    Except ProtoError RouteMatch :=
  match pathMatchConv ext s.path with
  | .error e => .error e
  | .ok path =>
    match convertHeaderMatches ext s.headers with
    | .error e => .error e
    | .ok headers =>
      match convertQueryMatches ext s.query_params with
      | .error e => .error e
      | .ok query =>
        .ok { path := path, method := s.method.map (fun m => MethodMatch.mk m.exact),
              headers := headers, query := query }

/-! Derived accessors and predicates used in the theorem statements. -/

/-- Whether a converted `ListenerProtocol` is one of the TLS-carrying variants
(`HTTPS` or `TLS`). -/
def ListenerProtocol.carriesTls : ListenerProtocol → Bool
  | .HTTPS _ => true
  | .TLS _ => true
  | _ => false

/-- The backend reference stored inside an `McpTargetSpec`. -/
def McpTargetSpec.backendRef : McpTargetSpec → SimpleBackendReference
  | .Sse x => x.backend
  | .Mcp x => x.backend

/-- Modelled from the spec: the request-matching predicate of a `PathPrefix` match
(the matching algorithm of section 4.3 is not part of the conversion source under
`src/`): a prefix match holds when the request path starts with the prefix. -/
def pathPrefixMatches (pre path : String) : Bool :=
  pre.data.isPrefixOf path.data

/-- An instantiation of the external parsers whose regex compiler rejects every
pattern, used to exercise the conversion-error paths on concrete inputs. -/
def failRegexExternals : Externals :=
  { defaultExternals with compileRegex := fun _ => .error (.generic "regex parse error") }

/-! Helper lemmas. -/

/-- `splitOnceAux` splits at the first slash: a successful split reassembles the
input and the prefix part contains no slash. -/
theorem splitOnceAux_eq_some (l : List Char) :
    ∀ a b, splitOnceAux l = some (a, b) → l = a ++ '/' :: b ∧ '/' ∉ a := by
  induction l with
  | nil => intro a b h; simp [splitOnceAux] at h
  | cons c rest ih =>
    intro a b h
    by_cases hc : c = '/'
    · subst hc
      simp [splitOnceAux] at h
      obtain ⟨ha, hb⟩ := h
      subst ha; subst hb
      simp
    · have hrw : splitOnceAux (c :: rest) =
          (splitOnceAux rest).map (fun p => (c :: p.1, p.2)) := by
        simp [splitOnceAux, hc]
      rw [hrw, Option.map_eq_some'] at h
      obtain ⟨p, hp, hfp⟩ := h
      obtain ⟨p1, p2⟩ := p
      injection hfp with ha hb
      obtain ⟨hrest, hnot⟩ := ih p1 p2 hp
      subst ha; subst hb
      refine ⟨by rw [hrest]; rfl, ?_⟩
      intro hmem
      rcases List.mem_cons.mp hmem with h1 | h1
      · exact hc h1.symm
      · exact hnot h1

/-- `splitOnceAux` fails exactly when the input contains no slash. -/
theorem splitOnceAux_eq_none (l : List Char) :
    splitOnceAux l = none ↔ '/' ∉ l := by
  induction l with
  | nil => simp [splitOnceAux]
  | cons c rest ih =>
    by_cases hc : c = '/'
    · subst hc; simp [splitOnceAux]
    · have hrw : splitOnceAux (c :: rest) =
          (splitOnceAux rest).map (fun p => (c :: p.1, p.2)) := by
        simp [splitOnceAux, hc]
      rw [hrw, Option.map_eq_none', ih]
      constructor
      · intro h hmem
        rcases List.mem_cons.mp hmem with h1 | h1
        · exact hc h1.symm
        · exact h h1
      · intro h hmem
        exact h (List.mem_cons_of_mem c hmem)

/-- String-level version: a successful `splitOnce` splits at the first slash. -/
theorem splitOnce_eq_some (key a b : String) (h : splitOnce key = some (a, b)) :
    key.data = a.data ++ '/' :: b.data ∧ '/' ∉ a.data := by
  rw [splitOnce, Option.map_eq_some'] at h
  obtain ⟨p, hp, hfp⟩ := h
  obtain ⟨p1, p2⟩ := p
  injection hfp with ha hb
  subst ha; subst hb
  exact splitOnceAux_eq_some key.data p1 p2 hp

/-- String-level version: `splitOnce` fails exactly when the key has no slash. -/
theorem splitOnce_eq_none (key : String) :
    splitOnce key = none ↔ '/' ∉ key.data := by
  rw [splitOnce, Option.map_eq_none']
  exact splitOnceAux_eq_none key.data

/-- If the header-match collection succeeds, every regex value in the input
compiled successfully. -/
theorem convertHeaderMatches_ok_regex (ext : Externals) :
    ∀ (l : List HeaderMatchWire) (out : List HeaderMatch),
      convertHeaderMatches ext l = .ok out →
      ∀ h ∈ l, ∀ r, h.value = some (.Regex r) → ∃ re, ext.compileRegex r = .ok re := by
  intro l
  induction l with
  | nil => intro out _ h hmem; simp at hmem
  | cons x rest ih =>
    intro out hok h hmem r hval
    rcases List.mem_cons.mp hmem with hm | hm
    · subst hm
      cases hone : headerMatchConvOne ext h with
      | error e => simp [convertHeaderMatches, hone] at hok
      | ok v =>
        simp only [headerMatchConvOne, hval] at hone
        cases hn : ext.parseHeaderName h.name with
        | error e => simp [hn] at hone
        | ok n =>
          simp only [hn] at hone
          cases hr : ext.compileRegex r with
          | error e => simp [hr] at hone
          | ok re => exact ⟨re, rfl⟩
    · cases hone : headerMatchConvOne ext x with
      | error e => simp [convertHeaderMatches, hone] at hok
      | ok v =>
        cases hrest : convertHeaderMatches ext rest with
        | error e => simp [convertHeaderMatches, hone, hrest] at hok
        | ok rest2 => exact ih rest2 hrest h hm r hval

/-- If the query-match collection succeeds, every regex value in the input
compiled successfully. -/
theorem convertQueryMatches_ok_regex (ext : Externals) :
    ∀ (l : List QueryMatchWire) (out : List QueryMatch),
      convertQueryMatches ext l = .ok out →
      ∀ q ∈ l, ∀ r, q.value = some (.Regex r) → ∃ re, ext.compileRegex r = .ok re := by
  intro l
  induction l with
  | nil => intro out _ q hmem; simp at hmem
  | cons x rest ih =>
    intro out hok q hmem r hval
    rcases List.mem_cons.mp hmem with hm | hm
    · subst hm
      cases hone : queryMatchConvOne ext q with
      | error e => simp [convertQueryMatches, hone] at hok
      | ok v =>
        simp only [queryMatchConvOne, hval] at hone
        cases hr : ext.compileRegex r with
        | error e => simp [hr, Except.map] at hone
        | ok re => exact ⟨re, rfl⟩
    · cases hone : queryMatchConvOne ext x with
      | error e => simp [convertQueryMatches, hone] at hok
      | ok v =>
        cases hrest : convertQueryMatches ext rest with
        | error e => simp [convertQueryMatches, hone, hrest] at hok
        | ok rest2 => exact ih rest2 hrest q hm r hval

/-! Claim theorems. -/

/-- C1: `ListenerProtocol` conversion yields `HTTPS`/`TLS` exactly when a TLS config
was present: any successful result carries TLS iff the input had a TLS config;
`Http`/`Tcp`/`Hbone` with a TLS config and `Https`/`Tls` without one fail with the
distinct incompatibility error carrying both the protocol and the TLS-presence state
(never the generic invalid-enum error, which is reserved for `Unknown`); the valid
combinations succeed (`Https`/`Tls` provided the TLS material parses). -/
theorem c1_listener_protocol_tls_invariant (ext : Externals) (p : Protocol)
    (tls : Option TlsConfig) :
    (∀ r, listenerProtocolTryFrom ext p tls = .ok r → r.carriesTls = tls.isSome) ∧
    (∀ t, (p = .Http ∨ p = .Tcp ∨ p = .Hbone) → tls = some t →
      listenerProtocolTryFrom ext p tls = .error (.generic (incompatibleMsg p true))) ∧
    ((p = .Https ∨ p = .Tls) → tls = none →
      listenerProtocolTryFrom ext p tls = .error (.generic (incompatibleMsg p false))) ∧
    (∀ t c, tls = some t → ext.parseTls t = .ok c →
      (p = .Https → listenerProtocolTryFrom ext p tls = .ok (.HTTPS c)) ∧
      (p = .Tls → listenerProtocolTryFrom ext p tls = .ok (.TLS c))) ∧
    (tls = none →
      (p = .Http → listenerProtocolTryFrom ext p tls = .ok .HTTP) ∧
      (p = .Tcp → listenerProtocolTryFrom ext p tls = .ok .TCP) ∧
      (p = .Hbone → listenerProtocolTryFrom ext p tls = .ok .HBONE)) ∧
    (p ≠ .Unknown → ∀ s, listenerProtocolTryFrom ext p tls ≠ .error (.enumParse s)) := by
  refine ⟨?_, ?_, ?_, ?_, ?_, ?_⟩
  · intro r h
    cases p <;> cases tls <;>
      simp only [listenerProtocolTryFrom] at h <;>
      first
      | (cases h <;> rfl)
      | (rename_i t
         cases hp : ext.parseTls t <;> rw [hp] at h <;> cases h <;> rfl)
  · intro t hdisj htls
    subst htls
    rcases hdisj with h1 | h1 | h1 <;> subst h1 <;> rfl
  · intro hdisj htls
    subst htls
    rcases hdisj with h1 | h1 <;> subst h1 <;> rfl
  · intro t c htls hparse
    subst htls
    constructor
    · intro hp
      subst hp
      simp only [listenerProtocolTryFrom, hparse]
    · intro hp
      subst hp
      simp only [listenerProtocolTryFrom, hparse]
  · intro htls
    subst htls
    exact ⟨fun h => by subst h; rfl, fun h => by subst h; rfl, fun h => by subst h; rfl⟩
  · intro hp s h
    cases p <;> cases tls <;>
      first
      | exact hp rfl
      | (simp only [listenerProtocolTryFrom] at h <;>
         first
         | (cases h)
         | (rename_i t
            cases hparse : ext.parseTls t <;> rw [hparse] at h <;> cases h))

/-- Witness for C1 at concrete inputs: `Https` with a parsable TLS config converts to
`HTTPS`, and `Http` with a TLS config present fails with the incompatibility error. -/
theorem c1_witness :
    listenerProtocolTryFrom defaultExternals .Https (some ⟨"c", "k"⟩) =
      .ok (.HTTPS ⟨0⟩) ∧
    listenerProtocolTryFrom defaultExternals .Http (some ⟨"c", "k"⟩) =
      .error (.generic (incompatibleMsg .Http true)) :=
  ⟨((c1_listener_protocol_tls_invariant defaultExternals .Https
      (some ⟨"c", "k"⟩)).2.2.2.1 ⟨"c", "k"⟩ ⟨0⟩ rfl rfl).1 rfl,
   (c1_listener_protocol_tls_invariant defaultExternals .Http
      (some ⟨"c", "k"⟩)).2.1 ⟨"c", "k"⟩ (Or.inl rfl) rfl⟩

/-- C2 counterexample: a Bedrock AI backend with a model but with the `region` field
absent (the empty proto3 string) converts successfully, with the empty region copied
verbatim — so the claim that an absent region fails conversion is false. -/
theorem c2_counterexample :
    backendTryFrom defaultExternals
        ⟨"b", some (.Ai ⟨none, some (.Bedrock ⟨some "m", ""⟩)⟩)⟩ =
      .ok (.AI "b" ⟨none, .Bedrock ⟨"m", ""⟩⟩) := rfl

/-- C2 amended: Bedrock conversion requires a `model` — its absence is the
field-specific error `bedrock requires a model` — while the `region` field is copied
verbatim with no check and no default substitution (an absent region yields the empty
string, not an error). -/
theorem c2_bedrock_requires_model (ext : Externals) (name region : String) :
    backendTryFrom ext ⟨name, some (.Ai ⟨none, some (.Bedrock ⟨none, region⟩)⟩)⟩ =
      .error (.generic "bedrock requires a model") ∧
    ∀ m, backendTryFrom ext ⟨name, some (.Ai ⟨none, some (.Bedrock ⟨some m, region⟩)⟩)⟩ =
      .ok (.AI name ⟨none, .Bedrock ⟨m, region⟩⟩) :=
  ⟨rfl, fun _ => rfl⟩

/-- C3 counterexample: a wire `RouteBackend` whose backend-kind oneof is unset but
which carries a malformed filter fails conversion — so the claim that every
`RouteBackend` with an unset kind converts successfully is false. -/
theorem c3_counterexample :
    routeBackendTryFrom defaultExternals ⟨none, 0, 1, [⟨none⟩]⟩ =
      some (.error (.generic "invalid route filter")) := rfl

/-- C3 amended: an unset backend-kind never itself causes a conversion error.
For `RouteBackend` the result equals the filters conversion with the backend set to
`BackendReference::Invalid` (so it succeeds whenever the filters convert); for
`McpTarget`, the protocol decode at the head of the conversion is still fallible
(an unknown raw value fails with its decode error before the kind is examined), and
whenever the protocol decodes, conversion with an unset kind succeeds and stores
`SimpleBackendReference::Invalid`. -/
theorem c3_unset_kind_yields_invalid (ext : Externals) (s : RouteBackendWire)
    (t : McpTargetWireRaw) :
    (s.kind = none →
      routeBackendTryFrom ext s =
        (convertFilters ext s.filters).map (Except.map
          (fun fs => { weight := s.weight, backend := .Invalid, filters := fs }))) ∧
    (∀ e, mcpProtocolTryFrom t.protocol = .error e →
      mcpTargetTryFromRaw t = .error e) ∧
    (∀ p, t.kind = none → mcpProtocolTryFrom t.protocol = .ok p →
      ∃ r, mcpTargetTryFromRaw t = .ok r ∧ r.spec.backendRef = .Invalid) := by
  refine ⟨?_, ?_, ?_⟩
  · intro hk
    obtain ⟨k, port, w, fs⟩ := s
    simp only at hk
    subst hk
    cases hc : convertFilters ext fs with
    | none => simp [routeBackendTryFrom, routeBackendKindConv, hc]
    | some r =>
      cases r with
      | error e => simp [routeBackendTryFrom, routeBackendKindConv, hc, Except.map]
      | ok l => simp [routeBackendTryFrom, routeBackendKindConv, hc, Except.map]
  · intro e hdec
    simp [mcpTargetTryFromRaw, hdec]
  · intro p hk hdec
    obtain ⟨name, protoRaw, k, port⟩ := t
    simp only at hk hdec
    subst hk
    rw [show mcpTargetTryFromRaw ⟨name, protoRaw, none, port⟩ =
        mcpTargetTryFrom ⟨name, p, none, port⟩ from by
      simp [mcpTargetTryFromRaw, hdec]]
    cases p <;>
      exact ⟨_, rfl, rfl⟩

/-- Witness for C3's amended theorem at concrete inputs: unset kinds produce
`Invalid` references (raw protocol `0` decodes to `Undefined`), and the raw
protocol `99` fails the decode. -/
theorem c3_witness :
    (routeBackendTryFrom defaultExternals ⟨none, 0, 5, []⟩ =
      (convertFilters defaultExternals []).map (Except.map
        (fun fs => { weight := 5, backend := .Invalid, filters := fs }))) ∧
    (mcpTargetTryFromRaw ⟨"t", 99, none, 0⟩ = .error (.enumParse "unknown enum value")) ∧
    (∃ r, mcpTargetTryFromRaw ⟨"t", 0, none, 0⟩ = .ok r ∧
      r.spec.backendRef = .Invalid) :=
  ⟨(c3_unset_kind_yields_invalid defaultExternals ⟨none, 0, 5, []⟩
      ⟨"t", 0, none, 0⟩).1 rfl,
   (c3_unset_kind_yields_invalid defaultExternals ⟨none, 0, 5, []⟩
      ⟨"t", 99, none, 0⟩).2.1 (.enumParse "unknown enum value") rfl,
   (c3_unset_kind_yields_invalid defaultExternals ⟨none, 0, 5, []⟩
      ⟨"t", 0, none, 0⟩).2.2 .Undefined rfl rfl⟩

/-- C4: a wire service-reference key is split into namespace and hostname at the
first `/` (the namespace part contains no further slash and the input reassembles
exactly); a key without a separator fails conversion with the
`NamespacedHostnameParse` error carrying the raw offending value, in both
`RouteBackendReference` and `McpTarget` conversion. -/
theorem c4_service_key_split (ext : Externals) (s : RouteBackendWire)
    (t : McpTargetWire) (key : String) :
    (splitOnce key = none ↔ '/' ∉ key.data) ∧
    (∀ a b, splitOnce key = some (a, b) →
      key.data = a.data ++ '/' :: b.data ∧ '/' ∉ a.data) ∧
    (s.kind = some (.Service key) → splitOnce key = none →
      routeBackendTryFrom ext s = some (.error (.namespacedHostnameParse key))) ∧
    (t.kind = some (.Service key) → splitOnce key = none →
      mcpTargetTryFrom t = .error (.namespacedHostnameParse key)) ∧
    (∀ a b, s.kind = some (.Service key) → splitOnce key = some (a, b) →
      routeBackendTryFrom ext s =
        (convertFilters ext s.filters).map (Except.map
          (fun fs => { weight := s.weight,
                       backend := .Service ⟨a, b⟩ (s.port % 65536),
                       filters := fs }))) ∧
    (∀ a b, t.kind = some (.Service key) → splitOnce key = some (a, b) →
      ∃ r, mcpTargetTryFrom t = .ok r ∧
        r.spec.backendRef = .Service ⟨a, b⟩ (t.port % 65536)) := by
  refine ⟨splitOnce_eq_none key, fun a b h => splitOnce_eq_some key a b h, ?_, ?_, ?_, ?_⟩
  · intro hk hsplit
    obtain ⟨k, port, w, fs⟩ := s
    simp only at hk
    subst hk
    simp [routeBackendTryFrom, routeBackendKindConv, hsplit]
  · intro hk hsplit
    obtain ⟨name, proto, k, port⟩ := t
    simp only at hk
    subst hk
    simp [mcpTargetTryFrom, mcpTargetKindConv, hsplit, Except.map]
  · intro a b hk hsplit
    obtain ⟨k, port, w, fs⟩ := s
    simp only at hk
    subst hk
    cases hc : convertFilters ext fs with
    | none => simp [routeBackendTryFrom, routeBackendKindConv, hsplit, hc]
    | some r =>
      cases r with
      | error e =>
        simp [routeBackendTryFrom, routeBackendKindConv, hsplit, hc, Except.map]
      | ok l =>
        simp [routeBackendTryFrom, routeBackendKindConv, hsplit, hc, Except.map]
  · intro a b hk hsplit
    obtain ⟨name, proto, k, port⟩ := t
    simp only at hk
    subst hk
    cases proto with
    | Undefined =>
      refine ⟨⟨name, .Mcp ⟨.Service ⟨a, b⟩ (port % 65536), "/mcp"⟩⟩, ?_, rfl⟩
      simp [mcpTargetTryFrom, mcpTargetKindConv, hsplit, Except.map]
    | Sse =>
      refine ⟨⟨name, .Sse ⟨.Service ⟨a, b⟩ (port % 65536), "/sse"⟩⟩, ?_, rfl⟩
      simp [mcpTargetTryFrom, mcpTargetKindConv, hsplit, Except.map]
    | StreamableHttp =>
      refine ⟨⟨name, .Mcp ⟨.Service ⟨a, b⟩ (port % 65536), "/mcp"⟩⟩, ?_, rfl⟩
      simp [mcpTargetTryFrom, mcpTargetKindConv, hsplit, Except.map]

/-- Witness for C4 at concrete inputs: a separator-free key errors with the raw
value; `ns/host.example` splits into namespace `ns` and hostname `host.example`. -/
theorem c4_witness :
    (routeBackendTryFrom defaultExternals ⟨some (.Service "nohostname"), 0, 1, []⟩ =
      some (.error (.namespacedHostnameParse "nohostname"))) ∧
    (∃ r, mcpTargetTryFrom ⟨"t", .Sse, some (.Service "ns/host.example"), 70000⟩ =
        .ok r ∧
      r.spec.backendRef = .Service ⟨"ns", "host.example"⟩ (70000 % 65536)) :=
  ⟨(c4_service_key_split defaultExternals ⟨some (.Service "nohostname"), 0, 1, []⟩
      ⟨"t", .Sse, some (.Service "ns/host.example"), 70000⟩ "nohostname").2.2.1
      rfl (by decide),
   (c4_service_key_split defaultExternals ⟨some (.Service "nohostname"), 0, 1, []⟩
      ⟨"t", .Sse, some (.Service "ns/host.example"), 70000⟩ "ns/host.example").2.2.2.2.2
      "ns" "host.example" rfl (by decide)⟩

/-- C5: regex handling in `RouteMatch` conversion. A path pattern that fails to
compile makes the whole conversion return that error (the conversion is a total
function into `Except`, so no panic is possible); a pattern that compiles is stored
compiled (with its pattern length) in the runtime `PathMatch`, so requests consult
the compiled value; and a successful conversion implies every header and query regex
pattern of the input compiled successfully at conversion time. -/
theorem c5_regex_compiled_at_conversion (ext : Externals) (s : RouteMatchWire) :
    (∀ r e, s.path = some ⟨some (.Regex r)⟩ → ext.compileRegex r = .error e →
      routeMatchTryFrom ext s = .error e) ∧
    (∀ r re m, s.path = some ⟨some (.Regex r)⟩ → ext.compileRegex r = .ok re →
      routeMatchTryFrom ext s = .ok m → m.path = .Regex re r.length) ∧
    (∀ m, routeMatchTryFrom ext s = .ok m →
      (∀ h ∈ s.headers, ∀ r, h.value = some (.Regex r) →
        ∃ re, ext.compileRegex r = .ok re) ∧
      (∀ q ∈ s.query_params, ∀ r, q.value = some (.Regex r) →
        ∃ re, ext.compileRegex r = .ok re)) := by
  obtain ⟨path, method, headers, query⟩ := s
  refine ⟨?_, ?_, ?_⟩
  · intro r e hpath herr
    simp only at hpath
    subst hpath
    simp [routeMatchTryFrom, pathMatchConv, herr, Except.map]
  · intro r re m hpath hok hconv
    simp only at hpath
    subst hpath
    simp only [routeMatchTryFrom, pathMatchConv, hok, Except.map] at hconv
    cases hH : convertHeaderMatches ext headers with
    | error e => rw [hH] at hconv; cases hconv
    | ok hs =>
      rw [hH] at hconv
      cases hQ : convertQueryMatches ext query with
      | error e => rw [hQ] at hconv; cases hconv
      | ok qs =>
        rw [hQ] at hconv
        cases hconv
        rfl
  · intro m hconv
    simp only [routeMatchTryFrom] at hconv
    cases hP : pathMatchConv ext path with
    | error e => rw [hP] at hconv; cases hconv
    | ok pm =>
      rw [hP] at hconv
      cases hH : convertHeaderMatches ext headers with
      | error e => rw [hH] at hconv; cases hconv
      | ok hs =>
        rw [hH] at hconv
        cases hQ : convertQueryMatches ext query with
        | error e => rw [hQ] at hconv; cases hconv
        | ok qs =>
          exact ⟨convertHeaderMatches_ok_regex ext headers hs hH,
                 convertQueryMatches_ok_regex ext query qs hQ⟩

/-- Witness for C5 at concrete inputs: a rejected pattern is a conversion error;
an accepted pattern is stored compiled with its pattern length. -/
theorem c5_witness :
    (routeMatchTryFrom failRegexExternals ⟨some ⟨some (.Regex "[")⟩, none, [], []⟩ =
      .error (.generic "regex parse error")) ∧
    ((⟨.Regex ⟨"a+b"⟩ 3, none, [], []⟩ : RouteMatch).path = .Regex ⟨"a+b"⟩ 3) :=
  ⟨(c5_regex_compiled_at_conversion failRegexExternals
      ⟨some ⟨some (.Regex "[")⟩, none, [], []⟩).1 "[" (.generic "regex parse error")
      rfl rfl,
   (c5_regex_compiled_at_conversion defaultExternals
      ⟨some ⟨some (.Regex "a+b")⟩, none, [], []⟩).2.1 "a+b" ⟨"a+b"⟩
      ⟨.Regex ⟨"a+b"⟩ 3, none, [], []⟩ rfl rfl rfl⟩

/-- C6: an unset wire path match converts to the implicit `PathPrefix("/")`: any
successful `RouteMatch` conversion of such an input stores `PathPrefix("/")`, the
conversion succeeds outright when the other match axes are empty, and the prefix
predicate of `PathPrefix("/")` holds for every request path (every HTTP request path
starts with a slash). -/
theorem c6_implicit_root_path (ext : Externals) (s : RouteMatchWire) (p : String) :
    (s.path = none → ∀ m, routeMatchTryFrom ext s = .ok m →
      m.path = .PathPrefix "/") ∧
    (s.path = none → s.headers = [] → s.query_params = [] →
      routeMatchTryFrom ext s =
        .ok { path := .PathPrefix "/",
              method := s.method.map (fun mm => MethodMatch.mk mm.exact),
              headers := [], query := [] }) ∧
    (∀ rest, p.data = '/' :: rest → pathPrefixMatches "/" p = true) := by
  obtain ⟨path, method, headers, query⟩ := s
  refine ⟨?_, ?_, ?_⟩
  · intro hpath m hconv
    simp only at hpath
    subst hpath
    simp only [routeMatchTryFrom, pathMatchConv] at hconv
    cases hH : convertHeaderMatches ext headers with
    | error e => rw [hH] at hconv; cases hconv
    | ok hs =>
      rw [hH] at hconv
      cases hQ : convertQueryMatches ext query with
      | error e => rw [hQ] at hconv; cases hconv
      | ok qs =>
        rw [hQ] at hconv
        cases hconv
        rfl
  · intro hpath hh hq
    simp only at hpath hh hq
    subst hpath; subst hh; subst hq
    rfl
  · intro rest hp
    have h1 : ("/" : String).data = ['/'] := rfl
    simp [pathPrefixMatches, h1, hp, List.isPrefixOf]

/-- Witness for C6 at concrete inputs: a `RouteMatch` with no path converts to
`PathPrefix("/")`, and the prefix predicate accepts `/api/widgets`. -/
theorem c6_witness :
    (routeMatchTryFrom defaultExternals ⟨none, some ⟨"GET"⟩, [], []⟩ =
      .ok { path := .PathPrefix "/", method := some ⟨"GET"⟩,
            headers := [], query := [] }) ∧
    pathPrefixMatches "/" "/api/widgets" = true :=
  ⟨(c6_implicit_root_path defaultExternals ⟨none, some ⟨"GET"⟩, [], []⟩
      "/api/widgets").2.1 rfl rfl rfl,
   (c6_implicit_root_path defaultExternals ⟨none, some ⟨"GET"⟩, [], []⟩
      "/api/widgets").2.2 "api/widgets".data (by decide)⟩

/-- C7: `McpTarget` conversion selects streamable-HTTP by default: a successful
conversion of a wire target with protocol `Undefined` or `StreamableHttp` yields the
`Mcp` spec with path `/mcp`, and protocol `Sse` yields the `Sse` spec with path
`/sse`. -/
theorem c7_mcp_protocol_default (s : McpTargetWire) (r : McpTarget)
    (h : mcpTargetTryFrom s = .ok r) :
    ((s.protocol = .Undefined ∨ s.protocol = .StreamableHttp) →
      ∃ b, r.spec = .Mcp { backend := b, path := "/mcp" }) ∧
    (s.protocol = .Sse → ∃ b, r.spec = .Sse { backend := b, path := "/sse" }) := by
  obtain ⟨name, proto, kind, port⟩ := s
  simp only [mcpTargetTryFrom] at h
  cases hk : mcpTargetKindConv ⟨name, proto, kind, port⟩ with
  | error e => rw [hk] at h; cases h
  | ok backend =>
    rw [hk] at h
    simp only [Except.map] at h
    cases h
    constructor
    · intro hp
      rcases hp with hp | hp <;> simp only at hp <;> subst hp <;> exact ⟨backend, rfl⟩
    · intro hp
      simp only at hp
      subst hp
      exact ⟨backend, rfl⟩

/-- Witness for C7 at a concrete input: protocol `Undefined` yields the
streamable-HTTP spec with path `/mcp`. -/
theorem c7_witness :
    ∃ b, (⟨"t", .Mcp ⟨.Invalid, "/mcp"⟩⟩ : McpTarget).spec =
      .Mcp { backend := b, path := "/mcp" } :=
  (c7_mcp_protocol_default ⟨"t", .Undefined, none, 0⟩ ⟨"t", .Mcp ⟨.Invalid, "/mcp"⟩⟩
    rfl).1 (Or.inl rfl)

/-- Helper: `default_as_none` only ever returns `some` of its input. -/
theorem default_as_none_eq_some {α : Type} [Inhabited α] [DecidableEq α]
    (i j : α) (h : default_as_none i = some j) : j = i ∧ i ≠ default := by
  by_cases hd : i = default
  · simp [default_as_none, hd] at h
  · simp [default_as_none, hd] at h
    exact ⟨h.symm, hd⟩

/-- C8: `default_as_none` returns `none` exactly on the type's default value and
`some` otherwise, and the `RequestRedirect` filter conversion normalizes all four
zero-as-absent fields through it: an empty scheme yields no scheme, status `0`
yields no status override, an empty host with port `0` yields no authority, port `0`
never yields a port override, and a nonzero port with empty host yields exactly the
port override. -/
theorem c8_default_as_none_uniform {α : Type} [Inhabited α] [DecidableEq α] (i : α)
    (ext : Externals) (rd : RequestRedirectWire) :
    (default_as_none i = none ↔ i = default) ∧
    (i ≠ default → default_as_none i = some i) ∧
    (∀ rr, routeFilterTryFrom ext ⟨some (.RequestRedirect rd)⟩ =
        some (.ok (.RequestRedirect rr)) →
      (rd.scheme = "" → rr.scheme = none) ∧
      (rd.status = 0 → rr.status = none) ∧
      (rd.host = "" → rd.port = 0 → rr.authority = none) ∧
      (rd.port = 0 → rr.authority = none ∨ rr.authority = some (.Host rd.host)) ∧
      (rd.host = "" → rd.port ≠ 0 →
        rr.authority = some (.Port ⟨rd.port % 65536⟩))) := by
  refine ⟨?_, ?_, ?_⟩
  · by_cases h : i = default <;> simp [default_as_none, h]
  · intro h; simp [default_as_none, h]
  · intro rr h
    simp only [routeFilterTryFrom] at h
    cases hs : transposeOE ((default_as_none rd.scheme).map ext.parseScheme) with
    | error e => rw [hs] at h; cases h
    | ok scheme =>
      rw [hs] at h
      cases ha : redirectAuthority rd.host rd.port with
      | none => rw [ha] at h; cases h
      | some authority =>
        rw [ha] at h
        cases hst : transposeOE ((default_as_none rd.status).map
            (fun st => ext.statusFromU16 (st % 65536))) with
        | error e => rw [hst] at h; cases h
        | ok status =>
          rw [hst] at h
          injection h with h1
          injection h1 with h2
          injection h2 with h3
          subst h3
          refine ⟨?_, ?_, ?_, ?_, ?_⟩
          · intro h0
            rw [h0] at hs
            simp [default_as_none, transposeOE] at hs
            simp [hs.symm]
          · intro h0
            rw [h0] at hst
            simp [default_as_none, transposeOE] at hst
            simp [hst.symm]
          · intro hh hp
            rw [hh, hp] at ha
            simp [redirectAuthority, default_as_none] at ha
            simp [ha.symm]
          · intro hp
            rw [hp] at ha
            have h0 : default_as_none (0 : Nat) = none := rfl
            cases hdh : default_as_none rd.host with
            | none =>
              rw [show redirectAuthority rd.host 0 = some none from by
                simp [redirectAuthority, hdh, h0]] at ha
              injection ha with ha1
              exact Or.inl (by simp [ha1.symm])
            | some hv =>
              obtain ⟨hv_eq, _⟩ := default_as_none_eq_some rd.host hv hdh
              subst hv_eq
              rw [show redirectAuthority rd.host 0 =
                  some (some (.Host rd.host)) from by
                simp [redirectAuthority, hdh, h0]] at ha
              injection ha with ha1
              exact Or.inr (by simp [ha1.symm])
          · intro hh hp
            rw [hh] at ha
            have hdp : default_as_none rd.port = some rd.port := by
              simp [default_as_none]
              intro hc
              exact absurd hc hp
            have hds : default_as_none ("" : String) = none := by decide
            cases hnz : nonZeroU16New (rd.port % 65536) with
            | none =>
              rw [show redirectAuthority "" rd.port = none from by
                simp [redirectAuthority, hds, hdp, hnz]] at ha
              cases ha
            | some nz =>
              have hnz2 : nz = ⟨rd.port % 65536⟩ := by
                by_cases hz : rd.port % 65536 = 0
                · simp [nonZeroU16New, hz] at hnz
                · simp [nonZeroU16New, hz] at hnz
                  exact hnz.symm
              subst hnz2
              rw [show redirectAuthority "" rd.port =
                  some (some (.Port ⟨rd.port % 65536⟩)) from by
                simp [redirectAuthority, hds, hdp, hnz]] at ha
              injection ha with ha1
              simp [ha1.symm]

/-- Witness for C8 at concrete inputs: `3` is not the `Nat` default so it survives
`default_as_none`, and an all-default redirect converts with no authority. -/
theorem c8_witness :
    default_as_none (3 : Nat) = some 3 ∧
    (⟨none, none, none, none⟩ : RequestRedirect).authority = none :=
  ⟨(c8_default_as_none_uniform (3 : Nat) defaultExternals
      ⟨"", "", 0, none, 0⟩).2.1 (by decide),
   (((c8_default_as_none_uniform (3 : Nat) defaultExternals
      ⟨"", "", 0, none, 0⟩).2.2 ⟨none, none, none, none⟩ rfl).2.2.1) rfl rfl⟩

/-- C9: the failing input. A wire `RequestRedirect` with no host and port `65536`
passes `default_as_none` (the port is a nonzero `u32`), but `65536 as u16` is `0`,
so `NonZeroU16::new(..)` is `None` and the `.unwrap()` panics: the conversion
evaluates to the panic value (`none`) instead of returning a result. -/
theorem c9_redirect_port_unwrap_panics :
    default_as_none (65536 : Nat) = some 65536 ∧
    nonZeroU16New (65536 % 65536) = none ∧
    routeFilterTryFrom defaultExternals
        ⟨some (.RequestRedirect ⟨"", "", 65536, none, 0⟩)⟩ = none :=
  ⟨rfl, rfl, rfl⟩

/-- C10: `TrafficPolicy` conversion always produces `retry: None`, and carries over
exactly the two wire timeout fields (each present in the output iff present and
parsable on the wire). -/
theorem c10_traffic_policy_no_retry (ext : Externals) (s : TrafficPolicyWire)
    (r : TrafficPolicy) (h : trafficPolicyTryFrom ext s = .ok r) :
    r.retry = none ∧
    (s.request_timeout = none → r.timeout.request_timeout = none) ∧
    (∀ d, s.request_timeout = some d →
      ∃ v, ext.parseDuration d = .ok v ∧ r.timeout.request_timeout = some v) ∧
    (s.backend_request_timeout = none → r.timeout.backend_request_timeout = none) ∧
    (∀ d, s.backend_request_timeout = some d →
      ∃ v, ext.parseDuration d = .ok v ∧
        r.timeout.backend_request_timeout = some v) := by
  obtain ⟨rt, bt⟩ := s
  simp only [trafficPolicyTryFrom] at h
  cases hq : transposeOE (Option.map ext.parseDuration rt) with
  | error e => rw [hq] at h; cases h
  | ok req =>
    rw [hq] at h
    cases hb : transposeOE (Option.map ext.parseDuration bt) with
    | error e => rw [hb] at h; cases h
    | ok backend =>
      rw [hb] at h
      injection h with h1
      subst h1
      refine ⟨rfl, ?_, ?_, ?_, ?_⟩
      · intro h0
        simp only at h0
        subst h0
        simp [transposeOE] at hq
        simp [hq.symm]
      · intro d h0
        simp only at h0
        subst h0
        cases hp : ext.parseDuration d with
        | error e => simp [transposeOE, hp] at hq
        | ok v =>
          simp [transposeOE, hp] at hq
          exact ⟨v, rfl, by simp [hq.symm]⟩
      · intro h0
        simp only at h0
        subst h0
        simp [transposeOE] at hb
        simp [hb.symm]
      · intro d h0
        simp only at h0
        subst h0
        cases hp : ext.parseDuration d with
        | error e => simp [transposeOE, hp] at hb
        | ok v =>
          simp [transposeOE, hp] at hb
          exact ⟨v, rfl, by simp [hb.symm]⟩

/-- Witness for C10 at a concrete input: a wire policy with a three-second request
timeout converts to a policy with no retry and that timeout carried over. -/
theorem c10_witness :
    (⟨⟨some ⟨3, 0⟩, none⟩, none⟩ : TrafficPolicy).retry = none ∧
    ∃ v, defaultExternals.parseDuration ⟨3, 0⟩ = .ok v ∧
      (⟨⟨some ⟨3, 0⟩, none⟩, none⟩ : TrafficPolicy).timeout.request_timeout = some v :=
  ⟨(c10_traffic_policy_no_retry defaultExternals ⟨some ⟨3, 0⟩, none⟩
      ⟨⟨some ⟨3, 0⟩, none⟩, none⟩ rfl).1,
   (c10_traffic_policy_no_retry defaultExternals ⟨some ⟨3, 0⟩, none⟩
      ⟨⟨some ⟨3, 0⟩, none⟩, none⟩ rfl).2.2.1 ⟨3, 0⟩ rfl⟩
